import Mathlib

/-!
Verification of the `systemet` crate (`src/lib.rs`), a typed client for the
Systembolaget product API.

The HTTP transport (`reqwest`) and the JSON library (`serde_json`) are
external dependencies of the crate.  The JSON library is modelled below on
the JSON fragment the development exercises (no string escapes, integer
numerals); everything else is a shallow embedding of the Rust source.
Rust `f64` payloads are never computed with by the crate — they are only
stored and (de)serialized — so they are carried by a type with decidable
equality (`Int`, matching the integer numeral fragment of the JSON model).
-/

/-- Model of Rust `f64` payloads (see the header comment: the crate only
stores and (de)serializes them, never computes with them). -/
abbrev F64 := Int

/-- Model of `chrono::Date<Utc>`: a calendar date, no time of day. -/
structure Date where
  year : Nat
  month : Nat
  day : Nat
deriving DecidableEq

/-- `SortKey` from src/lib.rs:146-155, `#[repr(i32)]`. -/
inductive SortKey where
  | Price
  | Name
  | Volume
  | Vintage
  | Rank
  | City
  | SellStartDate
  | DisplayName
deriving DecidableEq

/-- The `i32` discriminant of `SortKey` (src/lib.rs:146-155), emitted on the
wire by `Serialize_repr`. -/
def SortKey.toRepr : SortKey → Int
  | .Price => 0
  | .Name => 1
  | .Volume => 2
  | .Vintage => 3
  | .Rank => 4
  | .City => 5
  | .SellStartDate => 6
  | .DisplayName => 7

/-- `SortDirection` from src/lib.rs:129-132, `#[repr(i32)]`. -/
inductive SortDirection where
  | Ascending
  | Descending
deriving DecidableEq

/-- The `i32` discriminant of `SortDirection` (src/lib.rs:129-132). -/
def SortDirection.toRepr : SortDirection → Int
  | .Ascending => 0
  | .Descending => 1

/-- `ApiError` (src/lib.rs:377-382): one API-reported error. -/
structure ApiError where
  error : String
  message : String
deriving DecidableEq

/-- `Error` (src/lib.rs:16-24).  `serde_json::Error` and `reqwest::Error`
are external opaque diagnostics, modelled as their display strings. -/
inductive Error where
  | Parse (err : String) (body : String)
  | Api (errors : List ApiError)
  | Reqwest (err : String)
deriving DecidableEq

/-- The `body` stored in a `Error::Parse`, if the error is of that kind. -/
def Error.parseBody : Error → Option String
  | .Parse _ body => some body
  | _ => none

/-- The `err` stored in a `Error::Parse`, if the error is of that kind. -/
def Error.parseErr : Error → Option String
  | .Parse err _ => some err
  | _ => none

/-- `impl From<serde_json::Error> for Error` (src/lib.rs:26-33). -/
def Error.fromSerdeJson (err : String) : Error :=
  .Parse err "<unknown request body>"

/-- `SearchRequest` (src/lib.rs:298-328), fields in declaration order.
`kind` is the field the source documents as being called `type` in the API. -/
structure SearchRequest where
  alcohol_percentage_max : Option F64
  alcohol_percentage_min : Option F64
  assortment_text : Option String
  bottle_type_group : Option String
  country : Option String
  csr : Option String
  kind : Option String
  news : Option String
  origin_level_1 : Option String
  origin_level_2 : Option String
  other_selections : Option String
  page : Option Int
  price_max : Option F64
  price_min : Option F64
  «seal» : Option String
  search_query : Option String
  sell_start_date_from : Option Date
  sell_start_date_to : Option Date
  sort_by : Option SortKey
  sort_direction : Option SortDirection
  style : Option String
  sub_category : Option String
  vintage : Option String
deriving DecidableEq

/-- `#[derive(Default)]` for `SearchRequest`: every field unset. -/
def SearchRequest.default : SearchRequest where
  alcohol_percentage_max := none
  alcohol_percentage_min := none
  assortment_text := none
  bottle_type_group := none
  country := none
  csr := none
  kind := none
  news := none
  origin_level_1 := none
  origin_level_2 := none
  other_selections := none
  page := none
  price_max := none
  price_min := none
  «seal» := none
  search_query := none
  sell_start_date_from := none
  sell_start_date_to := none
  sort_by := none
  sort_direction := none
  style := none
  sub_category := none
  vintage := none

/-- `SearchRequest::new` (src/lib.rs:173-175). -/
def SearchRequest.new : SearchRequest := SearchRequest.default

/-- `SearchRequest::validate` (src/lib.rs:177-179). -/
def SearchRequest.validate (self : SearchRequest) : Bool :=
  self != SearchRequest.default

/-! The fluent setters of `SearchRequest` (src/lib.rs:181-295).  Each Rust
setter is `self.field = v; self`, i.e. a single-field update of the moved
builder.  Rust allows a method and a field to share a name; Lean does not
(the field projection owns the name), so each setter carries a prime. -/

def SearchRequest.alcohol_percentage_max' (self : SearchRequest) (v : Option F64) : SearchRequest :=
  { self with alcohol_percentage_max := v }

def SearchRequest.alcohol_percentage_min' (self : SearchRequest) (v : Option F64) : SearchRequest :=
  { self with alcohol_percentage_min := v }

def SearchRequest.assortment_text' (self : SearchRequest) (v : Option String) : SearchRequest :=
  { self with assortment_text := v }

def SearchRequest.bottle_type_group' (self : SearchRequest) (v : Option String) : SearchRequest :=
  { self with bottle_type_group := v }

def SearchRequest.country' (self : SearchRequest) (v : Option String) : SearchRequest :=
  { self with country := v }

def SearchRequest.csr' (self : SearchRequest) (v : Option String) : SearchRequest :=
  { self with csr := v }

def SearchRequest.kind' (self : SearchRequest) (v : Option String) : SearchRequest :=
  { self with kind := v }

def SearchRequest.news' (self : SearchRequest) (v : Option String) : SearchRequest :=
  { self with news := v }

def SearchRequest.origin_level_1' (self : SearchRequest) (v : Option String) : SearchRequest :=
  { self with origin_level_1 := v }

def SearchRequest.origin_level_2' (self : SearchRequest) (v : Option String) : SearchRequest :=
  { self with origin_level_2 := v }

def SearchRequest.other_selections' (self : SearchRequest) (v : Option String) : SearchRequest :=
  { self with other_selections := v }

def SearchRequest.page' (self : SearchRequest) (v : Option Int) : SearchRequest :=
  { self with page := v }

def SearchRequest.price_max' (self : SearchRequest) (v : Option F64) : SearchRequest :=
  { self with price_max := v }

def SearchRequest.price_min' (self : SearchRequest) (v : Option F64) : SearchRequest :=
  { self with price_min := v }

def SearchRequest.«seal'» (self : SearchRequest) (v : Option String) : SearchRequest :=
  { self with «seal» := v }

def SearchRequest.search_query' (self : SearchRequest) (v : Option String) : SearchRequest :=
  { self with search_query := v }

def SearchRequest.sell_start_date_from' (self : SearchRequest) (v : Option Date) : SearchRequest :=
  { self with sell_start_date_from := v }

def SearchRequest.sell_start_date_to' (self : SearchRequest) (v : Option Date) : SearchRequest :=
  { self with sell_start_date_to := v }

def SearchRequest.sort_by' (self : SearchRequest) (v : Option SortKey) : SearchRequest :=
  { self with sort_by := v }

def SearchRequest.sort_direction' (self : SearchRequest) (v : Option SortDirection) : SearchRequest :=
  { self with sort_direction := v }

def SearchRequest.style' (self : SearchRequest) (v : Option String) : SearchRequest :=
  { self with style := v }

def SearchRequest.sub_category' (self : SearchRequest) (v : Option String) : SearchRequest :=
  { self with sub_category := v }

def SearchRequest.vintage' (self : SearchRequest) (v : Option String) : SearchRequest :=
  { self with vintage := v }

/-- `impl fmt::Display for ApiError` (src/lib.rs:398-402). -/
def ApiError.display (e : ApiError) : String :=
  "error code: " ++ e.error ++ ", message: " ++ e.message

/-- `impl fmt::Display for Error` (src/lib.rs:47-73).  The Rust code
matches on `errors.len()`; the list patterns below are the same case
split. -/
def Error.display : Error → String
  | .Parse err body =>
      "Serialization/deserialization error: " ++ err ++ ". Response body: '" ++ body ++ "'"
  | .Reqwest err => "Network error: " ++ err
  | .Api [] => "API error: Got error response from API, but no error code or message"
  | .Api [e] => "API error: " ++ e.display
  | .Api errors =>
      "API errors: " ++ String.intercalate ", " (errors.map fun e => "(" ++ e.display ++ ")")

/-! ### Model of JSON values and of `serde_json`'s reader

`serde_json` is an external dependency.  It is modelled here on the JSON
fragment this development uses: no escape sequences inside string literals
and integer numerals (the crate never relies on either elsewhere).  The
reader is a fueled recursive-descent parser; fuel only bounds recursion
depth and `parseJson` supplies more than any input can consume. -/

/-- A JSON value.  Object member order is significant (serde emits struct
fields in declaration order). -/
inductive Json where
  | null
  | bool (b : Bool)
  | num (n : Int)
  | str (s : String)
  | arr (items : List Json)
  | obj (members : List (String × Json))

/-- The value of an object member, first occurrence by key. -/
def getField (members : List (String × Json)) (name : String) : Option Json :=
  (members.find? fun p => p.1 = name).map fun p => p.2

/-- Key lookup in a JSON object. -/
def Json.lookup (name : String) : Json → Option Json
  | .obj members => getField members name
  | _ => none

/-- The key list of a JSON object, in order. -/
def Json.keys : Json → List String
  | .obj members => members.map fun p => p.1
  | _ => []

def isWsCh (c : Char) : Bool :=
  c = ' ' || c = '\n' || c = '\t' || c = '\r'

def skipWs (cs : List Char) : List Char := cs.dropWhile isWsCh

def isDigitCh (c : Char) : Bool :=
  48 ≤ c.toNat && c.toNat ≤ 57

def charDigit (c : Char) : Nat := c.toNat - 48

def digitChar (d : Nat) : Char := Char.ofNat (48 + d)

/-- Value of a little-endian decimal digit list. -/
def digitsVal : List Nat → Nat
  | [] => 0
  | d :: ds => d + 10 * digitsVal ds

/-- Little-endian decimal digits of `n`, with explicit fuel (the fuel
`n` itself is always sufficient, see `digitsVal_natDigitsAux`). -/
def natDigitsAux : Nat → Nat → List Nat
  | 0, _ => []
  | _ + 1, 0 => []
  | f + 1, n + 1 => ((n + 1) % 10) :: natDigitsAux f ((n + 1) / 10)

/-- Little-endian decimal digits of `n`. -/
def natLE (n : Nat) : List Nat := natDigitsAux n n

/-- `n` printed in decimal, zero-padded on the left to at least `w`
characters — the behaviour of `chrono`'s zero-padded numeric format
specifiers (`%Y` with `w = 4`, `%m`/`%d`/`%H`/`%M`/`%S` with `w = 2`). -/
def fmtNat (w n : Nat) : List Char :=
  (List.replicate (w - (natLE n).reverse.length) 0 ++ (natLE n).reverse).map digitChar

/-- Read a non-empty all-digit character run as a decimal number. -/
def parseNatChars (l : List Char) : Option Nat :=
  if !l.isEmpty && l.all isDigitCh then
    some (digitsVal (l.map charDigit).reverse)
  else
    none

/-- Read a JSON string literal body (the part after the opening quote),
returning the string and the rest after the closing quote.  Escape
sequences are outside the modelled fragment. -/
def parseStringLit (cs : List Char) : Option (String × List Char) :=
  match cs.dropWhile fun c => c ≠ '"' with
  | '"' :: rest => some (String.mk (cs.takeWhile fun c => c ≠ '"'), rest)
  | _ => none

/-- Read a JSON numeral (integer fragment). -/
def parseNumberLit (cs : List Char) : Option (Json × List Char) :=
  match cs with
  | '-' :: rest =>
    if (rest.takeWhile isDigitCh).isEmpty then none
    else
      some (.num (-(digitsVal ((rest.takeWhile isDigitCh).map charDigit).reverse : Int)),
        rest.dropWhile isDigitCh)
  | _ =>
    if (cs.takeWhile isDigitCh).isEmpty then none
    else
      some (.num (digitsVal ((cs.takeWhile isDigitCh).map charDigit).reverse : Int),
        cs.dropWhile isDigitCh)

/-- One fueled step of the recursive-descent JSON reader.  Returns the
value and the unconsumed rest.  After an array/object separator the
remainder is re-read as a (shorter) array/object, so the recursion is
structural in the fuel. -/
def parseAux : Nat → List Char → Option (Json × List Char)
  | 0, _ => none
  | fuel + 1, cs =>
    match skipWs cs with
    | '[' :: rest =>
      match skipWs rest with
      | ']' :: rest2 => some (.arr [], rest2)
      | rest1 =>
        match parseAux fuel rest1 with
        | some (v, rest2) =>
          match skipWs rest2 with
          | ',' :: rest3 =>
            match parseAux fuel ('[' :: rest3) with
            | some (.arr vs, rest4) => some (.arr (v :: vs), rest4)
            | _ => none
          | ']' :: rest3 => some (.arr [v], rest3)
          | _ => none
        | none => none
    | '{' :: rest =>
      match skipWs rest with
      | '}' :: rest2 => some (.obj [], rest2)
      | '"' :: rest1 =>
        match parseStringLit rest1 with
        | some (key, rest2) =>
          match skipWs rest2 with
          | ':' :: rest3 =>
            match parseAux fuel rest3 with
            | some (v, rest4) =>
              match skipWs rest4 with
              | ',' :: rest5 =>
                match parseAux fuel ('{' :: rest5) with
                | some (.obj ms, rest6) => some (.obj ((key, v) :: ms), rest6)
                | _ => none
              | '}' :: rest5 => some (.obj [(key, v)], rest5)
              | _ => none
            | none => none
          | _ => none
        | none => none
      | _ => none
    | '"' :: rest =>
      match parseStringLit rest with
      | some (s, rest2) => some (.str s, rest2)
      | none => none
    | 'n' :: 'u' :: 'l' :: 'l' :: rest => some (.null, rest)
    | 't' :: 'r' :: 'u' :: 'e' :: rest => some (.bool true, rest)
    | 'f' :: 'a' :: 'l' :: 's' :: 'e' :: rest => some (.bool false, rest)
    | cs1 => parseNumberLit cs1

/-- Read a whole JSON document: one value, then only trailing whitespace
(`serde_json::from_str` rejects trailing content). -/
def parseJson (s : String) : Option Json :=
  match parseAux (2 * s.data.length + 4) s.data with
  | some (v, rest) => if (skipWs rest).isEmpty then some v else none
  | none => none

/-! ### The date codecs (`date_serializer`, `option_date_serializer`,
src/lib.rs:404-461)

Both modules use `chrono` with the fixed format string
`"%Y-%m-%dT%H:%M:%S"`.  `chrono` is external; its formatting of that
pattern (zero-padded fields joined by the literal separators) and its
parsing of it (separator-delimited decimal runs, then calendar validity
checks) are modelled below. -/

/-- Split a character list at every occurrence of `c` (the separator-driven
reading of `chrono`'s literal format separators).  First component: the
segment before the first separator; second: the remaining segments. -/
def splitChAux (c : Char) : List Char → List Char × List (List Char)
  | [] => ([], [])
  | x :: xs =>
    let r := splitChAux c xs
    if x = c then ([], r.1 :: r.2) else (x :: r.1, r.2)

/-- All segments of `l` delimited by `c`; always non-empty. -/
def splitCh (c : Char) (l : List Char) : List (List Char) :=
  (splitChAux c l).1 :: (splitChAux c l).2

/-- Proleptic-Gregorian leap-year rule (as implemented by `chrono`). -/
def isLeapYear (y : Nat) : Bool :=
  y % 4 == 0 && (y % 100 != 0 || y % 400 == 0)

/-- Days in a month of the proleptic Gregorian calendar. -/
def daysInMonth (y m : Nat) : Nat :=
  if m = 2 then (if isLeapYear y then 29 else 28)
  else if m = 4 ∨ m = 6 ∨ m = 9 ∨ m = 11 then 30
  else 31

/-- Model of `chrono`'s parsing of `"%Y-%m-%dT%H:%M:%S"`
(`Utc.datetime_from_str`): split into the six numeric fields, read each as
a decimal run, and reject calendar-invalid values. -/
def parseDateTime (s : String) : Option (Date × Nat × Nat × Nat) :=
  match splitCh 'T' s.data with
  | [dpart, tpart] =>
    match splitCh '-' dpart, splitCh ':' tpart with
    | [ys, ms, ds], [hs, mins, ss] =>
      match parseNatChars ys, parseNatChars ms, parseNatChars ds,
            parseNatChars hs, parseNatChars mins, parseNatChars ss with
      | some y, some mo, some d, some h, some mi, some sec =>
        if 1 ≤ mo ∧ mo ≤ 12 ∧ 1 ≤ d ∧ d ≤ daysInMonth y mo ∧
            h ≤ 23 ∧ mi ≤ 59 ∧ sec ≤ 59 then
          some (⟨y, mo, d⟩, h, mi, sec)
        else none
      | _, _, _, _, _, _ => none
    | _, _ => none
  | _ => none

/-- Model of `chrono`'s rendering of `"%Y-%m-%dT%H:%M:%S"` for a given
date and time of day. -/
def formatDateTimeChars (d : Date) (h mi s : Nat) : List Char :=
  fmtNat 4 d.year ++ '-' :: fmtNat 2 d.month ++ '-' :: fmtNat 2 d.day ++
    'T' :: fmtNat 2 h ++ ':' :: fmtNat 2 mi ++ ':' :: fmtNat 2 s

/-- `date_serializer::serialize` (src/lib.rs:412-418): format
`date.and_hms(0, 0, 0)` with the fixed pattern; the result is passed to
`serialize_str`, i.e. it becomes a JSON string. -/
def date_serializer.serialize (date : Date) : String :=
  String.mk (formatDateTimeChars date 0 0 0)

/-- `date_serializer::deserialize` (src/lib.rs:420-428): parse the string
with the fixed pattern as a datetime, keep the date part; a non-matching
string becomes a (custom) serde error identifying it. -/
def date_serializer.deserialize (s : String) : Except String Date :=
  match parseDateTime s with
  | some (d, _, _, _) => .ok d
  | none => .error ("invalid date string: " ++ s)

/-- `option_date_serializer::serialize` (src/lib.rs:439-450): a set date is
formatted like `date_serializer::serialize`; an unset one becomes the
four-character string `null`.  Either way the result is passed to
`serialize_str`, i.e. it becomes a JSON **string**. -/
def option_date_serializer.serialize (date : Option Date) : String :=
  match date with
  | some d => String.mk (formatDateTimeChars d 0 0 0)
  | none => "null"

/-- `option_date_serializer::deserialize` (src/lib.rs:452-460): textually
the same body as `date_serializer::deserialize` — it parses only the fixed
date pattern (and in the source even has return type `Date<Utc>`, not
`Option<Date<Utc>>`). -/
def option_date_serializer.deserialize (s : String) : Except String Date :=
  match parseDateTime s with
  | some (d, _, _, _) => .ok d
  | none => .error ("invalid date string: " ++ s)

/-- An in-range calendar date: a valid proleptic-Gregorian date whose year
fits the four-digit `YYYY` pattern. -/
def Date.InRange (d : Date) : Prop :=
  1 ≤ d.month ∧ d.month ≤ 12 ∧ 1 ≤ d.day ∧ d.day ≤ daysInMonth d.year d.month ∧
    d.year ≤ 9999

instance (d : Date) : Decidable d.InRange := by
  unfold Date.InRange
  infer_instance

/-! ### Response records and their serde decoders

`Product`, `ApiError`, `ProductsWithStore` and `ProductWithStore` derive
`Deserialize` with `#[serde(rename_all = "PascalCase")]` (and the explicit
`Type` rename on `Product::kind`).  The decoders below model the derived
implementations: required fields must be present with the right shape;
`Option` fields default to `None` when the key is absent or `null`;
unknown keys are ignored. -/

/-- `Product` (src/lib.rs:330-375), fields in declaration order. -/
structure Product where
  alcohol_percentage : F64
  assortment : Option String
  assortment_text : Option String
  beverage_description_short : Option String
  bottle_text_short : Option String
  category : Option String
  country : Option String
  ethical_label : Option String
  is_completely_out_of_stock : Bool
  is_ethical : Bool
  is_in_store_search_assortment : Option String
  is_kosher : Bool
  is_manufacturing_country : Bool
  is_news : Bool
  is_organic : Bool
  is_regional_restricted : Bool
  is_temporarily_out_of_stock : Option Bool
  is_web_launch : Bool
  kind : Option String
  origin_level_1 : Option String
  origin_level_2 : Option String
  price : F64
  producer_name : Option String
  product_id : String
  product_name_bold : String
  product_name_thin : Option String
  product_number_short : Option String
  product_number : String
  recycle_fee : F64
  restricted_parcel_quantity : Int
  «seal» : Option String
  sell_start_date : Date
  style : Option String
  sub_category : Option String
  supplier_name : Option String
  taste : Option String
  usage : Option String
  vintage : Int
  volume : F64
deriving DecidableEq

/-- `ProductWithStore` (src/lib.rs:391-396). -/
structure ProductWithStore where
  product_id : String
  product_number : String
deriving DecidableEq

/-- `ProductsWithStore` (src/lib.rs:384-389). -/
structure ProductsWithStore where
  site_id : String
  products : List ProductWithStore
deriving DecidableEq

/-- serde: a required `String` field. -/
def reqString (o : List (String × Json)) (name : String) : Except String String :=
  match getField o name with
  | some (.str s) => .ok s
  | some _ => .error ("invalid type for field " ++ name)
  | none => .error ("missing field " ++ name)

/-- serde: a required `bool` field. -/
def reqBool (o : List (String × Json)) (name : String) : Except String Bool :=
  match getField o name with
  | some (.bool b) => .ok b
  | some _ => .error ("invalid type for field " ++ name)
  | none => .error ("missing field " ++ name)

/-- serde: a required `f64` field (integer numeral fragment). -/
def reqF64 (o : List (String × Json)) (name : String) : Except String F64 :=
  match getField o name with
  | some (.num n) => .ok n
  | some _ => .error ("invalid type for field " ++ name)
  | none => .error ("missing field " ++ name)

/-- serde: a required `i32` field; an out-of-range numeral is rejected. -/
def reqI32 (o : List (String × Json)) (name : String) : Except String Int :=
  match getField o name with
  | some (.num n) =>
    if -(2 ^ 31) ≤ n ∧ n < 2 ^ 31 then .ok n
    else .error ("number out of range for field " ++ name)
  | some _ => .error ("invalid type for field " ++ name)
  | none => .error ("missing field " ++ name)

/-- serde: an `Option<String>` field — absent or `null` is `None`. -/
def optString (o : List (String × Json)) (name : String) : Except String (Option String) :=
  match getField o name with
  | none => .ok none
  | some .null => .ok none
  | some (.str s) => .ok (some s)
  | some _ => .error ("invalid type for field " ++ name)

/-- serde: an `Option<bool>` field — absent or `null` is `None`. -/
def optBool (o : List (String × Json)) (name : String) : Except String (Option Bool) :=
  match getField o name with
  | none => .ok none
  | some .null => .ok none
  | some (.bool b) => .ok (some b)
  | some _ => .error ("invalid type for field " ++ name)

/-- serde: a required field read `#[serde(with = "date_serializer")]` — a
JSON string fed through `date_serializer::deserialize`. -/
def reqDate (o : List (String × Json)) (name : String) : Except String Date :=
  match getField o name with
  | some (.str s) => date_serializer.deserialize s
  | some _ => .error ("invalid type for field " ++ name)
  | none => .error ("missing field " ++ name)

/-- The derived `Deserialize` for `ApiError` (PascalCase keys). -/
def decodeApiError : Json → Except String ApiError
  | .obj o => do
    let e ← reqString o "Error"
    let m ← reqString o "Message"
    .ok { error := e, message := m }
  | _ => .error "invalid type: expected struct ApiError"

/-- Element-wise decoding of a JSON array body. -/
def decodeListAux {α : Type} (dec : Json → Except String α) :
    List Json → Except String (List α)
  | [] => .ok []
  | j :: js => do
    let a ← dec j
    let as ← decodeListAux dec js
    .ok (a :: as)

/-- The `Deserialize` of `Vec<α>`: a JSON array, decoded element-wise. -/
def decodeList {α : Type} (dec : Json → Except String α) : Json → Except String (List α)
  | .arr js => decodeListAux dec js
  | _ => .error "invalid type: expected a sequence"

/-- The derived `Deserialize` for `Product` (PascalCase keys, `Type` for
`kind`, the date field via `date_serializer`). -/
def decodeProduct : Json → Except String Product
  | .obj o => do
    let alcohol_percentage ← reqF64 o "AlcoholPercentage"
    let assortment ← optString o "Assortment"
    let assortment_text ← optString o "AssortmentText"
    let beverage_description_short ← optString o "BeverageDescriptionShort"
    let bottle_text_short ← optString o "BottleTextShort"
    let category ← optString o "Category"
    let country ← optString o "Country"
    let ethical_label ← optString o "EthicalLabel"
    let is_completely_out_of_stock ← reqBool o "IsCompletelyOutOfStock"
    let is_ethical ← reqBool o "IsEthical"
    let is_in_store_search_assortment ← optString o "IsInStoreSearchAssortment"
    let is_kosher ← reqBool o "IsKosher"
    let is_manufacturing_country ← reqBool o "IsManufacturingCountry"
    let is_news ← reqBool o "IsNews"
    let is_organic ← reqBool o "IsOrganic"
    let is_regional_restricted ← reqBool o "IsRegionalRestricted"
    let is_temporarily_out_of_stock ← optBool o "IsTemporarilyOutOfStock"
    let is_web_launch ← reqBool o "IsWebLaunch"
    let kind ← optString o "Type"
    let origin_level_1 ← optString o "OriginLevel1"
    let origin_level_2 ← optString o "OriginLevel2"
    let price ← reqF64 o "Price"
    let producer_name ← optString o "ProducerName"
    let product_id ← reqString o "ProductId"
    let product_name_bold ← reqString o "ProductNameBold"
    let product_name_thin ← optString o "ProductNameThin"
    let product_number_short ← optString o "ProductNumberShort"
    let product_number ← reqString o "ProductNumber"
    let recycle_fee ← reqF64 o "RecycleFee"
    let restricted_parcel_quantity ← reqI32 o "RestrictedParcelQuantity"
    let seal_field ← optString o "Seal"
    let sell_start_date ← reqDate o "SellStartDate"
    let style ← optString o "Style"
    let sub_category ← optString o "SubCategory"
    let supplier_name ← optString o "SupplierName"
    let taste ← optString o "Taste"
    let usage ← optString o "Usage"
    let vintage ← reqI32 o "Vintage"
    let volume ← reqF64 o "Volume"
    .ok {
      alcohol_percentage, assortment, assortment_text, beverage_description_short,
      bottle_text_short, category, country, ethical_label,
      is_completely_out_of_stock, is_ethical, is_in_store_search_assortment,
      is_kosher, is_manufacturing_country, is_news, is_organic,
      is_regional_restricted, is_temporarily_out_of_stock, is_web_launch,
      kind, origin_level_1, origin_level_2, price, producer_name, product_id,
      product_name_bold, product_name_thin, product_number_short,
      product_number, recycle_fee, restricted_parcel_quantity,
      «seal» := seal_field, sell_start_date, style, sub_category,
      supplier_name, taste, usage, vintage, volume }
  | _ => .error "invalid type: expected struct Product"

/-- The derived `Deserialize` for `ProductWithStore` (PascalCase keys). -/
def decodeProductWithStore : Json → Except String ProductWithStore
  | .obj o => do
    let product_id ← reqString o "ProductId"
    let product_number ← reqString o "ProductNumber"
    .ok { product_id, product_number }
  | _ => .error "invalid type: expected struct ProductWithStore"

/-- The derived `Deserialize` for `ProductsWithStore` (PascalCase keys). -/
def decodeProductsWithStore : Json → Except String ProductsWithStore
  | .obj o => do
    let site_id ← reqString o "SiteId"
    let products ←
      match getField o "Products" with
      | some j => decodeList decodeProductWithStore j
      | none => .error "missing field Products"
    .ok { site_id, products }
  | _ => .error "invalid type: expected struct ProductsWithStore"

/-- Model of `serde_json::from_str::<α>`: read the document, then decode. -/
def serde_from_str {α : Type} (dec : Json → Except String α) (s : String) :
    Except String α :=
  match parseJson s with
  | some j => dec j
  | none => .error "expected value"

/-- `serde_json::from_str::<Product>`. -/
def serde_from_str_Product (s : String) : Except String Product :=
  serde_from_str decodeProduct s

/-- `serde_json::from_str::<Vec<ApiError>>`. -/
def serde_from_str_VecApiError (s : String) : Except String (List ApiError) :=
  serde_from_str (decodeList decodeApiError) s

/-- `serde_json::from_str::<Vec<ProductsWithStore>>`. -/
def serde_from_str_VecProductsWithStore (s : String) :
    Except String (List ProductsWithStore) :=
  serde_from_str (decodeList decodeProductsWithStore) s

/-- The response-classification core of `Systemet::send_request`
(src/lib.rs:114-124).  The HTTP exchange is external; `body` is the text
the exchange produced, and the two parameters are `serde_json::from_str`
at the success type `T` and at `Vec<ApiError>`.  The match is the Rust
match: success parse first, then the error-shape parse, then a `Parse`
error holding the second attempt's diagnostic and the body. -/
def Systemet.send_request {T : Type}
    (from_str_T : String → Except String T)
    (from_str_errors : String → Except String (List ApiError))
    (body : String) : Except Error T :=
  match from_str_T body with
  | .ok product => .ok product
  | .error _ =>
    match from_str_errors body with
    | .ok api_error => .error (.Api api_error)
    | .error err => .error (.Parse err body)

/-! ### The derived `Serialize` for `SearchRequest` (src/lib.rs:298-328)

`SearchRequest` has **no** `rename_all` and no per-field rename, so the
derived serializer emits every field, in declaration order, under its Rust
identifier; `Option` fields serialize `None` as JSON `null`; the two
`sell_start_date` fields go through `option_date_serializer::serialize`,
whose output is handed to `serialize_str`, i.e. becomes a JSON string;
`SortKey`/`SortDirection` (`Serialize_repr`) become their `i32`
discriminants. -/

/-- serde `Serialize` of `Option<String>`: `None` is JSON `null`. -/
def optStrJson : Option String → Json
  | some s => .str s
  | none => .null

/-- serde `Serialize` of an optional numeric field (`Option<f64>` or
`Option<i32>`): `None` is JSON `null`. -/
def optNumJson : Option Int → Json
  | some n => .num n
  | none => .null

/-- serde `Serialize` of `Option<SortKey>` (`Serialize_repr` inside). -/
def optSortKeyJson : Option SortKey → Json
  | some k => .num k.toRepr
  | none => .null

/-- serde `Serialize` of `Option<SortDirection>` (`Serialize_repr` inside). -/
def optSortDirectionJson : Option SortDirection → Json
  | some d => .num d.toRepr
  | none => .null

/-- The JSON body the derived `Serialize` emits for a `SearchRequest`. -/
def SearchRequest.toJson (self : SearchRequest) : Json :=
  .obj [
    ("alcohol_percentage_max", optNumJson self.alcohol_percentage_max),
    ("alcohol_percentage_min", optNumJson self.alcohol_percentage_min),
    ("assortment_text", optStrJson self.assortment_text),
    ("bottle_type_group", optStrJson self.bottle_type_group),
    ("country", optStrJson self.country),
    ("csr", optStrJson self.csr),
    ("kind", optStrJson self.kind),
    ("news", optStrJson self.news),
    ("origin_level_1", optStrJson self.origin_level_1),
    ("origin_level_2", optStrJson self.origin_level_2),
    ("other_selections", optStrJson self.other_selections),
    ("page", optNumJson self.page),
    ("price_max", optNumJson self.price_max),
    ("price_min", optNumJson self.price_min),
    ("seal", optStrJson self.seal),
    ("search_query", optStrJson self.search_query),
    ("sell_start_date_from", .str (option_date_serializer.serialize self.sell_start_date_from)),
    ("sell_start_date_to", .str (option_date_serializer.serialize self.sell_start_date_to)),
    ("sort_by", optSortKeyJson self.sort_by),
    ("sort_direction", optSortDirectionJson self.sort_direction),
    ("style", optStrJson self.style),
    ("sub_category", optStrJson self.sub_category),
    ("vintage", optStrJson self.vintage)
  ]

/-! ### Supporting lemmas -/

theorem digitsVal_natDigitsAux : ∀ (f n : Nat), n ≤ f → digitsVal (natDigitsAux f n) = n
  | 0, 0, _ => rfl
  | 0, n + 1, h => absurd h (by omega)
  | _ + 1, 0, _ => rfl
  | f + 1, n + 1, h => by
    have hlt : (n + 1) / 10 < n + 1 := Nat.div_lt_self (Nat.succ_pos n) (by norm_num)
    have ih := digitsVal_natDigitsAux f ((n + 1) / 10) (by omega)
    simp only [natDigitsAux, digitsVal, ih]
    omega

theorem digitsVal_natLE (n : Nat) : digitsVal (natLE n) = n :=
  digitsVal_natDigitsAux n n (Nat.le_refl n)

theorem digitsVal_append_zeros (L : List Nat) (k : Nat) :
    digitsVal (L ++ List.replicate k 0) = digitsVal L := by
  induction L with
  | nil =>
    simp only [List.nil_append]
    induction k with
    | zero => rfl
    | succ k ih => simpa [List.replicate_succ, digitsVal] using ih
  | cons d ds ih => simp [digitsVal, ih]

theorem mem_natDigitsAux_lt : ∀ (f n : Nat), ∀ d ∈ natDigitsAux f n, d < 10
  | 0, _, _, hd => by simp [natDigitsAux] at hd
  | _ + 1, 0, _, hd => by simp [natDigitsAux] at hd
  | f + 1, n + 1, d, hd => by
    simp only [natDigitsAux, List.mem_cons] at hd
    rcases hd with rfl | hd
    · omega
    · exact mem_natDigitsAux_lt f _ d hd

theorem charDigit_digitChar {d : Nat} (h : d < 10) : charDigit (digitChar d) = d := by
  interval_cases d <;> rfl

theorem isDigitCh_digitChar {d : Nat} (h : d < 10) : isDigitCh (digitChar d) = true := by
  interval_cases d <;> rfl

theorem isDigitCh_ne {c : Char} (h : isDigitCh c = true) :
    c ≠ 'T' ∧ c ≠ '-' ∧ c ≠ ':' := by
  refine ⟨?_, ?_, ?_⟩ <;> rintro rfl <;> exact absurd h (by decide)

theorem mem_fmtNat_lt (w n : Nat) :
    ∀ d ∈ List.replicate (w - (natLE n).reverse.length) 0 ++ (natLE n).reverse, d < 10 := by
  intro d hd
  rcases List.mem_append.1 hd with h1 | h1
  · have := List.eq_of_mem_replicate h1
    omega
  · exact mem_natDigitsAux_lt n n d (List.mem_reverse.1 h1)

theorem fmtNat_all_digit (w n : Nat) : ∀ c ∈ fmtNat w n, isDigitCh c = true := by
  intro c hc
  simp only [fmtNat, List.mem_map] at hc
  obtain ⟨d, hd, rfl⟩ := hc
  exact isDigitCh_digitChar (mem_fmtNat_lt w n d hd)

theorem fmtNat_ne_empty (w n : Nat) (hw : 0 < w) : fmtNat w n ≠ [] := by
  intro he
  have h1 : (fmtNat w n).length = 0 := by rw [he]; rfl
  have h2 : (fmtNat w n).length =
      (w - (natLE n).reverse.length) + (natLE n).reverse.length := by
    simp [fmtNat]
  omega

theorem parseNatChars_fmtNat (w n : Nat) (hw : 0 < w) :
    parseNatChars (fmtNat w n) = some n := by
  have hcond : (!(fmtNat w n).isEmpty && (fmtNat w n).all isDigitCh) = true := by
    rw [Bool.and_eq_true, List.all_eq_true]
    refine ⟨?_, fmtNat_all_digit w n⟩
    cases hfe : (fmtNat w n).isEmpty
    · rfl
    · exact absurd (List.isEmpty_iff.1 hfe) (fmtNat_ne_empty w n hw)
  have hmap : (fmtNat w n).map charDigit =
      List.replicate (w - (natLE n).reverse.length) 0 ++ (natLE n).reverse := by
    simp only [fmtNat, List.map_map]
    have : ∀ d ∈ List.replicate (w - (natLE n).reverse.length) 0 ++ (natLE n).reverse,
        (charDigit ∘ digitChar) d = id d := by
      intro d hd
      simpa using charDigit_digitChar (mem_fmtNat_lt w n d hd)
    rw [List.map_congr_left this, List.map_id]
  rw [parseNatChars, hcond, if_pos rfl, hmap, List.reverse_append, List.reverse_reverse,
    List.reverse_replicate, digitsVal_append_zeros, digitsVal_natLE]

theorem splitChAux_no_sep (c : Char) (a l : List Char) (h : ∀ x ∈ a, x ≠ c) :
    splitChAux c (a ++ l) = (a ++ (splitChAux c l).1, (splitChAux c l).2) := by
  induction a with
  | nil => simp
  | cons x xs ih =>
    have hx : x ≠ c := h x (List.mem_cons_self x xs)
    have ih' := ih fun y hy => h y (List.mem_cons_of_mem x hy)
    simp only [List.cons_append, splitChAux, List.append_eq, ih', if_neg hx]

theorem splitCh_append_cons (c : Char) (a l : List Char) (h : ∀ x ∈ a, x ≠ c) :
    splitCh c (a ++ c :: l) = a :: splitCh c l := by
  have h1 := splitChAux_no_sep c a (c :: l) h
  simp [splitCh, h1, splitChAux]

theorem splitCh_no_sep (c : Char) (a : List Char) (h : ∀ x ∈ a, x ≠ c) :
    splitCh c a = [a] := by
  have h1 := splitChAux_no_sep c a [] h
  simp only [List.append_nil] at h1
  simp [splitCh, h1, splitChAux]


theorem fmtNat_ne_sep (w n : Nat) : ∀ x ∈ fmtNat w n, x ≠ 'T' ∧ x ≠ '-' ∧ x ≠ ':' :=
  fun x hx => isDigitCh_ne (fmtNat_all_digit w n x hx)

theorem splitCh_dash_date (y m d : Nat) :
    splitCh '-' (fmtNat 4 y ++ '-' :: (fmtNat 2 m ++ '-' :: fmtNat 2 d)) =
      [fmtNat 4 y, fmtNat 2 m, fmtNat 2 d] := by
  rw [splitCh_append_cons '-' _ _ fun x hx => (fmtNat_ne_sep 4 y x hx).2.1,
    splitCh_append_cons '-' _ _ fun x hx => (fmtNat_ne_sep 2 m x hx).2.1,
    splitCh_no_sep '-' _ fun x hx => (fmtNat_ne_sep 2 d x hx).2.1]

theorem splitCh_colon_time (h mi s : Nat) :
    splitCh ':' (fmtNat 2 h ++ ':' :: (fmtNat 2 mi ++ ':' :: fmtNat 2 s)) =
      [fmtNat 2 h, fmtNat 2 mi, fmtNat 2 s] := by
  rw [splitCh_append_cons ':' _ _ fun x hx => (fmtNat_ne_sep 2 h x hx).2.2,
    splitCh_append_cons ':' _ _ fun x hx => (fmtNat_ne_sep 2 mi x hx).2.2,
    splitCh_no_sep ':' _ fun x hx => (fmtNat_ne_sep 2 s x hx).2.2]

theorem formatDateTimeChars_split (dt : Date) (h mi s : Nat) :
    formatDateTimeChars dt h mi s =
      (fmtNat 4 dt.year ++ '-' :: (fmtNat 2 dt.month ++ '-' :: fmtNat 2 dt.day)) ++
        'T' :: (fmtNat 2 h ++ ':' :: (fmtNat 2 mi ++ ':' :: fmtNat 2 s)) := by
  simp [formatDateTimeChars, List.append_assoc]

theorem mem_datepart_ne_T (dt : Date) :
    ∀ x ∈ fmtNat 4 dt.year ++ '-' :: (fmtNat 2 dt.month ++ '-' :: fmtNat 2 dt.day),
      x ≠ 'T' := by
  intro x hx
  rcases List.mem_append.1 hx with hx | hx
  · exact (fmtNat_ne_sep 4 dt.year x hx).1
  rcases List.mem_cons.1 hx with rfl | hx
  · decide
  rcases List.mem_append.1 hx with hx | hx
  · exact (fmtNat_ne_sep 2 dt.month x hx).1
  rcases List.mem_cons.1 hx with rfl | hx
  · decide
  exact (fmtNat_ne_sep 2 dt.day x hx).1

theorem mem_timepart_ne_T (h mi s : Nat) :
    ∀ x ∈ fmtNat 2 h ++ ':' :: (fmtNat 2 mi ++ ':' :: fmtNat 2 s), x ≠ 'T' := by
  intro x hx
  rcases List.mem_append.1 hx with hx | hx
  · exact (fmtNat_ne_sep 2 h x hx).1
  rcases List.mem_cons.1 hx with rfl | hx
  · decide
  rcases List.mem_append.1 hx with hx | hx
  · exact (fmtNat_ne_sep 2 mi x hx).1
  rcases List.mem_cons.1 hx with rfl | hx
  · decide
  exact (fmtNat_ne_sep 2 s x hx).1

theorem parseDateTime_format (dt : Date) (h : dt.InRange) :
    parseDateTime (String.mk (formatDateTimeChars dt 0 0 0)) = some (dt, 0, 0, 0) := by
  obtain ⟨h1, h2, h3, h4, _⟩ := h
  have hdata : (String.mk (formatDateTimeChars dt 0 0 0)).data =
      (fmtNat 4 dt.year ++ '-' :: (fmtNat 2 dt.month ++ '-' :: fmtNat 2 dt.day)) ++
        'T' :: (fmtNat 2 0 ++ ':' :: (fmtNat 2 0 ++ ':' :: fmtNat 2 0)) :=
    formatDateTimeChars_split dt 0 0 0
  unfold parseDateTime
  rw [hdata, splitCh_append_cons 'T' _ _ (mem_datepart_ne_T dt),
    splitCh_no_sep 'T' _ (mem_timepart_ne_T 0 0 0)]
  dsimp only
  rw [splitCh_dash_date, splitCh_colon_time]
  dsimp only
  rw [parseNatChars_fmtNat 4 dt.year (by norm_num),
    parseNatChars_fmtNat 2 dt.month (by norm_num),
    parseNatChars_fmtNat 2 dt.day (by norm_num),
    parseNatChars_fmtNat 2 0 (by norm_num)]
  dsimp only
  have hcond : 1 ≤ dt.month ∧ dt.month ≤ 12 ∧ 1 ≤ dt.day ∧
      dt.day ≤ daysInMonth dt.year dt.month ∧ (0:Nat) ≤ 23 ∧ (0:Nat) ≤ 59 ∧ (0:Nat) ≤ 59 :=
    ⟨h1, h2, h3, h4, by omega, by omega, by omega⟩
  rw [if_pos hcond]

/-! ### The claims -/

/-- C1.  Classifier precedence: whenever the body parses as the expected
success type `T`, `send_request` returns exactly that value as success.
The error-shape reader `from_str_errors` is universally quantified and
unconstrained, so the result provably does not depend on it — the
error-shape parse cannot influence (and in the source is never reached in)
this case, even when the same body would also parse as a `Vec<ApiError>`. -/
theorem send_request_success_precedence {T : Type}
    (from_str_T : String → Except String T)
    (from_str_errors : String → Except String (List ApiError))
    (body : String) (t : T) (h : from_str_T body = .ok t) :
    Systemet.send_request from_str_T from_str_errors body = .ok t := by
  unfold Systemet.send_request
  rw [h]

/-- Witness for C1 at `body = "[]"` with `T = Vec<ProductsWithStore>`
(the `get_products_with_store` instantiation).  This body parses as both
`T` (the empty list) and as the error shape (`Vec<ApiError>` also accepts
`[]`), and classification prefers `T`. -/
theorem send_request_success_precedence_witness :
    serde_from_str_VecProductsWithStore "[]" = .ok [] ∧
    serde_from_str_VecApiError "[]" = .ok [] ∧
    Systemet.send_request serde_from_str_VecProductsWithStore serde_from_str_VecApiError "[]" =
      .ok [] :=
  ⟨rfl, rfl, send_request_success_precedence _ _ "[]" [] rfl⟩

/-- C2 (counterexample).  The claim adds that the returned `ApiError`
sequence is non-empty; it is not: with `T = Product` (the `get_product`
instantiation) the body `"[]"` fails to parse as `T` but parses as an
**empty** `Vec<ApiError>`, and `send_request` returns `Error::Api([])`. -/
theorem send_request_empty_error_seq :
    serde_from_str_Product "[]" = .error "invalid type: expected struct Product" ∧
    serde_from_str_VecApiError "[]" = .ok [] ∧
    Systemet.send_request serde_from_str_Product serde_from_str_VecApiError "[]" =
      .error (.Api []) :=
  ⟨rfl, rfl, rfl⟩

/-- C2 (amended).  Classifier fallback: when the body fails to parse as
`T` but parses as a `Vec<ApiError>`, `send_request` returns an API-level
error carrying exactly the parsed sequence — order and count preserved,
the original `T`-parse error discarded — but that sequence may be empty. -/
theorem send_request_error_fallback_exact_seq {T : Type}
    (from_str_T : String → Except String T)
    (from_str_errors : String → Except String (List ApiError))
    (body : String) (e : String) (errs : List ApiError)
    (h1 : from_str_T body = .error e) (h2 : from_str_errors body = .ok errs) :
    Systemet.send_request from_str_T from_str_errors body = .error (.Api errs) := by
  unfold Systemet.send_request
  rw [h1, h2]

/-- Witness for the amended C2 at a one-element error body with
`T = Product`. -/
theorem send_request_error_fallback_exact_seq_witness :
    serde_from_str_Product "[\x7b\"Error\":\"a\",\"Message\":\"b\"\x7d]" =
      .error "invalid type: expected struct Product" ∧
    serde_from_str_VecApiError "[\x7b\"Error\":\"a\",\"Message\":\"b\"\x7d]" =
      .ok [{ error := "a", message := "b" }] ∧
    Systemet.send_request serde_from_str_Product serde_from_str_VecApiError
      "[\x7b\"Error\":\"a\",\"Message\":\"b\"\x7d]" =
      .error (.Api [{ error := "a", message := "b" }]) :=
  ⟨rfl, rfl, send_request_error_fallback_exact_seq _ _ _ _ _ rfl rfl⟩

/-- C3 (counterexample).  The claim says the parse failure carries the
**original (`T`-shape) parse error**.  It does not: the source discards
the first error (`Err(_)`) and stores the error of the second,
`Vec<ApiError>`-shape attempt.  At the body `"x"` (a JSON string) the two
diagnostics differ, and the stored one is the sequence-shape error. -/
theorem send_request_parse_error_not_original :
    serde_from_str_Product "\"x\"" = .error "invalid type: expected struct Product" ∧
    serde_from_str_VecApiError "\"x\"" = .error "invalid type: expected a sequence" ∧
    Systemet.send_request serde_from_str_Product serde_from_str_VecApiError "\"x\"" =
      .error (.Parse "invalid type: expected a sequence" "\"x\"") ∧
    "invalid type: expected a sequence" ≠ "invalid type: expected struct Product" :=
  ⟨rfl, rfl, rfl, by decide⟩

/-- C3 (amended).  Classifier failure: when the body parses neither as `T`
nor as a `Vec<ApiError>`, `send_request` returns a parse failure whose
stored raw body text equals the input body verbatim and whose stored
error is the diagnostic of the `Vec<ApiError>`-shape attempt (the
original `T`-shape error having been discarded). -/
theorem send_request_parse_failure_body_verbatim {T : Type}
    (from_str_T : String → Except String T)
    (from_str_errors : String → Except String (List ApiError))
    (body : String) (e1 e2 : String)
    (h1 : from_str_T body = .error e1) (h2 : from_str_errors body = .error e2) :
    Systemet.send_request from_str_T from_str_errors body = .error (.Parse e2 body) := by
  unfold Systemet.send_request
  rw [h1, h2]

/-- Witness for the amended C3 at the body `not json` with `T = Product`. -/
theorem send_request_parse_failure_body_verbatim_witness :
    serde_from_str_Product "not json" = .error "expected value" ∧
    serde_from_str_VecApiError "not json" = .error "expected value" ∧
    Systemet.send_request serde_from_str_Product serde_from_str_VecApiError "not json" =
      .error (.Parse "expected value" "not json") :=
  ⟨rfl, rfl, send_request_parse_failure_body_verbatim _ _ "not json" _ _ rfl rfl⟩

/-- C4.  The source's doc comment on `SearchRequest::kind` says the field
is called `type` in the API, but the struct carries no serde rename for it
(unlike `Product::kind`, which has `#[serde(rename = "Type")]`), so the
derived serializer emits the key `kind` and no key `type`: evaluated here
on `SearchRequest::new().kind(Some("Öl"))`. -/
theorem search_request_kind_serialized_under_kind_key :
    Json.lookup "kind" (SearchRequest.new.kind' (some "Öl")).toJson = some (.str "Öl") ∧
    Json.lookup "type" (SearchRequest.new.kind' (some "Öl")).toJson = none :=
  ⟨rfl, rfl⟩

/-- C6.  Mandatory date codec round-trip: for every in-range calendar
date, `date_serializer::serialize` renders exactly
`YYYY-MM-DDT00:00:00` — the four zero-padded year digits, dash, two month
digits, dash, two day digits, then the time part fixed to midnight — and
`date_serializer::deserialize` maps that string back to the same date. -/
theorem date_serializer_roundtrip (d : Date) (h : d.InRange) :
    date_serializer.serialize d =
      String.mk (fmtNat 4 d.year ++ '-' :: (fmtNat 2 d.month ++ '-' :: (fmtNat 2 d.day ++
        'T' :: ('0' :: '0' :: ':' :: '0' :: '0' :: ':' :: '0' :: '0' :: [])))) ∧
    date_serializer.deserialize (date_serializer.serialize d) = .ok d := by
  constructor
  · exact congrArg String.mk (by
      simp [formatDateTimeChars, show fmtNat 2 0 = ['0', '0'] from rfl, List.append_assoc])
  · unfold date_serializer.deserialize date_serializer.serialize
    rw [parseDateTime_format d h]

/-- Witness for C6 at the date 2021-02-28. -/
theorem date_serializer_roundtrip_witness :
    Date.InRange ⟨2021, 2, 28⟩ ∧
    date_serializer.serialize ⟨2021, 2, 28⟩ = "2021-02-28T00:00:00" ∧
    date_serializer.deserialize (date_serializer.serialize ⟨2021, 2, 28⟩) = .ok ⟨2021, 2, 28⟩ :=
  ⟨by decide, rfl, (date_serializer_roundtrip ⟨2021, 2, 28⟩ (by decide)).2⟩

/-- C7.  The optional date codec cannot round-trip an unset value:
`option_date_serializer::serialize` renders `None` as the string `null`,
and its own paired `option_date_serializer::deserialize` rejects exactly
that string (it parses only the fixed date pattern).  This is the
round-trip defect on the serialize-then-deserialize path of a
`SearchRequest` with an unset sell-start-date field. -/
theorem option_date_serializer_rejects_own_null :
    option_date_serializer.serialize none = "null" ∧
    option_date_serializer.deserialize (option_date_serializer.serialize none) =
      .error "invalid date string: null" :=
  ⟨rfl, rfl⟩

/-- C10.  `From<serde_json::Error>` always builds a `Parse`-kind error
that keeps the diagnostic but stores the fixed placeholder
`<unknown request body>` as the body text, whatever actually failed to
parse. -/
theorem error_from_serde_json_placeholder (err : String) :
    (Error.fromSerdeJson err).parseErr = some err ∧
    (Error.fromSerdeJson err).parseBody = some "<unknown request body>" :=
  ⟨rfl, rfl⟩

/-- C5 (counterexample).  The claim says every unset field — including the
two optional sell-start-date fields — is emitted as JSON `null`.  It is
not: the default (all-unset) request serializes `sell_start_date_from` as
the JSON **string** `null` (via `option_date_serializer::serialize` and
`serialize_str`), which is a different JSON value than `null`. -/
theorem search_request_unset_date_not_json_null :
    Json.lookup "sell_start_date_from" SearchRequest.default.toJson = some (.str "null") ∧
    Json.str "null" ≠ Json.null :=
  ⟨rfl, fun h => Json.noConfusion h⟩

/-- C5 (amended).  Serialization shape of `SearchRequest`: every one of
the 23 fields is emitted, as a key in declaration order; every unset field
other than the two sell-start-date fields is emitted with JSON `null`;
the two sell-start-date fields, when unset, are emitted with the JSON
string `"null"` (never an omitted key). -/
theorem search_request_serialization_shape (sr : SearchRequest) :
    Json.keys sr.toJson = ["alcohol_percentage_max", "alcohol_percentage_min", "assortment_text", "bottle_type_group", "country", "csr", "kind", "news", "origin_level_1", "origin_level_2", "other_selections", "page", "price_max", "price_min", "seal", "search_query", "sell_start_date_from", "sell_start_date_to", "sort_by", "sort_direction", "style", "sub_category", "vintage"] ∧
    (sr.alcohol_percentage_max = none → Json.lookup "alcohol_percentage_max" sr.toJson = some .null) ∧
    (sr.alcohol_percentage_min = none → Json.lookup "alcohol_percentage_min" sr.toJson = some .null) ∧
    (sr.assortment_text = none → Json.lookup "assortment_text" sr.toJson = some .null) ∧
    (sr.bottle_type_group = none → Json.lookup "bottle_type_group" sr.toJson = some .null) ∧
    (sr.country = none → Json.lookup "country" sr.toJson = some .null) ∧
    (sr.csr = none → Json.lookup "csr" sr.toJson = some .null) ∧
    (sr.kind = none → Json.lookup "kind" sr.toJson = some .null) ∧
    (sr.news = none → Json.lookup "news" sr.toJson = some .null) ∧
    (sr.origin_level_1 = none → Json.lookup "origin_level_1" sr.toJson = some .null) ∧
    (sr.origin_level_2 = none → Json.lookup "origin_level_2" sr.toJson = some .null) ∧
    (sr.other_selections = none → Json.lookup "other_selections" sr.toJson = some .null) ∧
    (sr.page = none → Json.lookup "page" sr.toJson = some .null) ∧
    (sr.price_max = none → Json.lookup "price_max" sr.toJson = some .null) ∧
    (sr.price_min = none → Json.lookup "price_min" sr.toJson = some .null) ∧
    (sr.«seal» = none → Json.lookup "seal" sr.toJson = some .null) ∧
    (sr.search_query = none → Json.lookup "search_query" sr.toJson = some .null) ∧
    (sr.sell_start_date_from = none → Json.lookup "sell_start_date_from" sr.toJson = some (.str "null")) ∧
    (sr.sell_start_date_to = none → Json.lookup "sell_start_date_to" sr.toJson = some (.str "null")) ∧
    (sr.sort_by = none → Json.lookup "sort_by" sr.toJson = some .null) ∧
    (sr.sort_direction = none → Json.lookup "sort_direction" sr.toJson = some .null) ∧
    (sr.style = none → Json.lookup "style" sr.toJson = some .null) ∧
    (sr.sub_category = none → Json.lookup "sub_category" sr.toJson = some .null) ∧
    (sr.vintage = none → Json.lookup "vintage" sr.toJson = some .null) := by
  refine ⟨rfl, ?_, ?_, ?_, ?_, ?_, ?_, ?_, ?_, ?_, ?_, ?_, ?_, ?_, ?_, ?_, ?_, ?_, ?_, ?_, ?_, ?_, ?_, ?_⟩
  all_goals intro h
  all_goals unfold SearchRequest.toJson
  all_goals rw [h]
  all_goals rfl

/-- Witness for the amended C5 at the default (all-unset) request: the
key list is full, an ordinary unset field is JSON `null`, and an unset
sell-start-date field is the JSON string `null`. -/
theorem search_request_serialization_shape_witness :
    Json.keys SearchRequest.default.toJson = ["alcohol_percentage_max", "alcohol_percentage_min", "assortment_text", "bottle_type_group", "country", "csr", "kind", "news", "origin_level_1", "origin_level_2", "other_selections", "page", "price_max", "price_min", "seal", "search_query", "sell_start_date_from", "sell_start_date_to", "sort_by", "sort_direction", "style", "sub_category", "vintage"] ∧
    Json.lookup "country" SearchRequest.default.toJson = some .null ∧
    Json.lookup "sell_start_date_to" SearchRequest.default.toJson = some (.str "null") := by
  obtain ⟨hk, h1, h2, h3, h4, h5, h6, h7, h8, h9, h10, h11, h12, h13, h14, h15, h16, h17, h18, h19, h20, h21, h22, h23⟩ :=
    search_request_serialization_shape SearchRequest.default
  exact ⟨hk, h5 rfl, h18 rfl⟩

/-- C8.  Builder frame property: for every builder state `s`, every
setter and every optional argument `v`, the setter returns a builder
whose own field equals `v` while every other field keeps its value in `s`
(writing the old value back over the updated field yields exactly `s`);
consequently setters for distinct fields commute and can be chained in
any order. -/
theorem search_request_setters_frame :
    (∀ (s : SearchRequest) (v : Option F64),
      (s.alcohol_percentage_max' v).alcohol_percentage_max = v ∧ { s.alcohol_percentage_max' v with alcohol_percentage_max := s.alcohol_percentage_max } = s) ∧
    (∀ (s : SearchRequest) (v : Option F64),
      (s.alcohol_percentage_min' v).alcohol_percentage_min = v ∧ { s.alcohol_percentage_min' v with alcohol_percentage_min := s.alcohol_percentage_min } = s) ∧
    (∀ (s : SearchRequest) (v : Option String),
      (s.assortment_text' v).assortment_text = v ∧ { s.assortment_text' v with assortment_text := s.assortment_text } = s) ∧
    (∀ (s : SearchRequest) (v : Option String),
      (s.bottle_type_group' v).bottle_type_group = v ∧ { s.bottle_type_group' v with bottle_type_group := s.bottle_type_group } = s) ∧
    (∀ (s : SearchRequest) (v : Option String),
      (s.country' v).country = v ∧ { s.country' v with country := s.country } = s) ∧
    (∀ (s : SearchRequest) (v : Option String),
      (s.csr' v).csr = v ∧ { s.csr' v with csr := s.csr } = s) ∧
    (∀ (s : SearchRequest) (v : Option String),
      (s.kind' v).kind = v ∧ { s.kind' v with kind := s.kind } = s) ∧
    (∀ (s : SearchRequest) (v : Option String),
      (s.news' v).news = v ∧ { s.news' v with news := s.news } = s) ∧
    (∀ (s : SearchRequest) (v : Option String),
      (s.origin_level_1' v).origin_level_1 = v ∧ { s.origin_level_1' v with origin_level_1 := s.origin_level_1 } = s) ∧
    (∀ (s : SearchRequest) (v : Option String),
      (s.origin_level_2' v).origin_level_2 = v ∧ { s.origin_level_2' v with origin_level_2 := s.origin_level_2 } = s) ∧
    (∀ (s : SearchRequest) (v : Option String),
      (s.other_selections' v).other_selections = v ∧ { s.other_selections' v with other_selections := s.other_selections } = s) ∧
    (∀ (s : SearchRequest) (v : Option Int),
      (s.page' v).page = v ∧ { s.page' v with page := s.page } = s) ∧
    (∀ (s : SearchRequest) (v : Option F64),
      (s.price_max' v).price_max = v ∧ { s.price_max' v with price_max := s.price_max } = s) ∧
    (∀ (s : SearchRequest) (v : Option F64),
      (s.price_min' v).price_min = v ∧ { s.price_min' v with price_min := s.price_min } = s) ∧
    (∀ (s : SearchRequest) (v : Option String),
      (s.«seal'» v).seal = v ∧ { s.«seal'» v with «seal» := s.seal } = s) ∧
    (∀ (s : SearchRequest) (v : Option String),
      (s.search_query' v).search_query = v ∧ { s.search_query' v with search_query := s.search_query } = s) ∧
    (∀ (s : SearchRequest) (v : Option Date),
      (s.sell_start_date_from' v).sell_start_date_from = v ∧ { s.sell_start_date_from' v with sell_start_date_from := s.sell_start_date_from } = s) ∧
    (∀ (s : SearchRequest) (v : Option Date),
      (s.sell_start_date_to' v).sell_start_date_to = v ∧ { s.sell_start_date_to' v with sell_start_date_to := s.sell_start_date_to } = s) ∧
    (∀ (s : SearchRequest) (v : Option SortKey),
      (s.sort_by' v).sort_by = v ∧ { s.sort_by' v with sort_by := s.sort_by } = s) ∧
    (∀ (s : SearchRequest) (v : Option SortDirection),
      (s.sort_direction' v).sort_direction = v ∧ { s.sort_direction' v with sort_direction := s.sort_direction } = s) ∧
    (∀ (s : SearchRequest) (v : Option String),
      (s.style' v).style = v ∧ { s.style' v with style := s.style } = s) ∧
    (∀ (s : SearchRequest) (v : Option String),
      (s.sub_category' v).sub_category = v ∧ { s.sub_category' v with sub_category := s.sub_category } = s) ∧
    (∀ (s : SearchRequest) (v : Option String),
      (s.vintage' v).vintage = v ∧ { s.vintage' v with vintage := s.vintage } = s) := by
  refine ⟨?_, ?_, ?_, ?_, ?_, ?_, ?_, ?_, ?_, ?_, ?_, ?_, ?_, ?_, ?_, ?_, ?_, ?_, ?_, ?_, ?_, ?_, ?_⟩ <;> exact fun s v => ⟨rfl, rfl⟩

/-- C9.  Display of the API-error case: zero `ApiError` entries render
the fixed generic no-code-no-message text; exactly one entry renders that
entry's `error code: E, message: M` form; two or more entries render
every entry's form individually parenthesized and joined by `, ` (shown
both in general and expanded for the two-entry case). -/
theorem error_display_cases :
    Error.display (.Api []) =
      "API error: Got error response from API, but no error code or message" ∧
    (∀ e : ApiError, Error.display (.Api [e]) =
      "API error: " ++ ("error code: " ++ e.error ++ ", message: " ++ e.message)) ∧
    (∀ (e1 e2 : ApiError) (rest : List ApiError),
      Error.display (.Api (e1 :: e2 :: rest)) =
        "API errors: " ++ String.intercalate ", "
          ((e1 :: e2 :: rest).map fun e => "(" ++ e.display ++ ")")) ∧
    (∀ e1 e2 : ApiError, Error.display (.Api [e1, e2]) =
      "API errors: " ++ ("(" ++ e1.display ++ ")" ++ ", " ++ ("(" ++ e2.display ++ ")"))) :=
  ⟨rfl, fun _ => rfl, fun _ _ _ => rfl, fun _ _ => rfl⟩
